import Mathlib

/-!
# Verification of the `apps/www/app/page.tsx` client against its specification

This file gives a shallow embedding of the client-side logic of the
`hello-inference` repository's front end (`src/apps/www/app/page.tsx`):
the Zod schemas (`FileSchema`, `MetadataSchema`, `AnalyzeResponseSchema`,
`HealthResponseSchema`), the event handlers (`onFileChange`, `onUpload`,
`checkHealth`), and the URL construction (`baseUrl` normalization and
`videoUrl`).

JavaScript values are modelled explicitly: a JS number is NaN, ±Infinity or
a finite value (modelled as a rational — no arithmetic is performed on the
values, only the classification checks the code makes: `Number.isInteger`,
comparison with 0, `Number.isFinite`); a parsed JSON document is a `JSValue`
tree.  Zod schemas are modelled with the semantics of Zod v3, the version
the code is written against (it reads `parsed.error.errors`, an API removed
in Zod v4): `z.number()` rejects `NaN` but accepts `±Infinity`; `.int()`
requires `Number.isInteger` (hence finiteness); `.nonnegative()` is the
check `¬(x < 0)`; `z.object` requires a JSON object and validates the listed
keys; `z.string().min(1)` requires length at least 1.
-/

/-- A JavaScript number: NaN, positive/negative infinity, or a finite value.
Finite values are modelled as rationals; the client performs no arithmetic on
them, only classification checks. -/
inductive JSNumber where
  | nan : JSNumber
  | posInf : JSNumber
  | negInf : JSNumber
  | finite : ℚ → JSNumber
deriving DecidableEq, Repr

namespace JSNumber

/-- JavaScript `Number.isNaN`. -/
def isNaN : JSNumber → Bool
  | .nan => true
  | _ => false

/-- JavaScript `Number.isFinite`. -/
def isFinite : JSNumber → Bool
  | .finite _ => true
  | _ => false

/-- JavaScript `Number.isInteger`: finite and integral (denominator 1). -/
def isInteger : JSNumber → Bool
  | .finite q => q.den == 1
  | _ => false

/-- The JavaScript comparison `x < 0` (false for NaN and +Infinity). -/
def ltZero : JSNumber → Bool
  | .negInf => true
  | .finite q => decide (q < 0)
  | _ => false

end JSNumber

/-- A JavaScript value as produced by `res.json()` (i.e. by `JSON.parse`).
Objects are association lists of string keys; `JSON.parse` never produces
duplicate keys (the last occurrence wins during parsing). -/
inductive JSValue where
  | null : JSValue
  | bool : Bool → JSValue
  | num : JSNumber → JSValue
  | str : String → JSValue
  | arr : List JSValue → JSValue
  | obj : List (String × JSValue) → JSValue
deriving Inhabited

/-- Look up a key in a JSON object's field list. -/
def lookupField (fields : List (String × JSValue)) (key : String) : Option JSValue :=
  (fields.find? (fun p => p.1 == key)).map (·.2)

/-- Zod `z.object(...)` type test: the input must be a JSON object
(not null, not an array). -/
def asObject : JSValue → Option (List (String × JSValue))
  | .obj fields => some fields
  | _ => none

/-- Zod `z.number()`: the value must be a number and not NaN
(Zod classifies NaN as its own parsed type); `±Infinity` passes. -/
def zodNumber : JSValue → Option JSNumber
  | .num .nan => none
  | .num n => some n
  | _ => none

/-- Zod `z.string()`. -/
def zodString : JSValue → Option String
  | .str s => some s
  | _ => none

/-- Zod `z.number().int().nonnegative()`: a non-NaN number that is an
integer (`Number.isInteger`) and not `< 0`. -/
def zodNonnegInt (v : JSValue) : Option JSNumber :=
  match zodNumber v with
  | none => none
  | some n => if n.isInteger && !n.ltZero then some n else none

/-- Zod `z.number().nonnegative()`: a non-NaN number that is not `< 0`.
(No finiteness check: `+Infinity` passes.) -/
def zodNonneg (v : JSValue) : Option JSNumber :=
  match zodNumber v with
  | none => none
  | some n => if !n.ltZero then some n else none

/-- Zod `z.string().min(1)`: a string of length at least 1. -/
def zodNonemptyString (v : JSValue) : Option String :=
  match zodString v with
  | none => none
  | some s => if 1 ≤ s.length then some s else none

/-- The video metadata record described by `MetadataSchema`
(`width`, `height`, `durationSeconds`, `frameRate`). -/
structure Metadata where
  width : JSNumber
  height : JSNumber
  durationSeconds : JSNumber
  frameRate : JSNumber
deriving DecidableEq, Repr

/-- `MetadataSchema.safeParse`: an object whose `width` and `height` are
non-negative integer numbers and whose `durationSeconds` and `frameRate` are
non-negative numbers (`z.number().int().nonnegative()` resp.
`z.number().nonnegative()`); extra keys are stripped, missing keys fail. -/
def MetadataSchema_parse (v : JSValue) : Option Metadata :=
  match asObject v with
  | none => none
  | some fields =>
    match (lookupField fields "width").bind zodNonnegInt,
          (lookupField fields "height").bind zodNonnegInt,
          (lookupField fields "durationSeconds").bind zodNonneg,
          (lookupField fields "frameRate").bind zodNonneg with
    | some width, some height, some durationSeconds, some frameRate =>
      some ⟨width, height, durationSeconds, frameRate⟩
    | _, _, _, _ => none

/-- The `/analyze` response record described by `AnalyzeResponseSchema`. -/
structure AnalyzeResponse where
  id : String
  metadata : Metadata
deriving DecidableEq, Repr

/-- `AnalyzeResponseSchema.safeParse`: an object with a string `id` of length
at least 1 (`z.string().min(1)`) and a `metadata` object conforming to
`MetadataSchema`. -/
def AnalyzeResponseSchema_parse (v : JSValue) : Option AnalyzeResponse :=
  match asObject v with
  | none => none
  | some fields =>
    match (lookupField fields "id").bind zodNonemptyString,
          (lookupField fields "metadata").bind MetadataSchema_parse with
    | some id, some metadata => some ⟨id, metadata⟩
    | _, _ => none

/-- `HealthResponseSchema.safeParse` success: an object whose `status` field
is the literal string `"ok"` (`z.literal("ok")`). -/
def HealthResponseSchema_success (v : JSValue) : Bool :=
  match asObject v with
  | none => false
  | some fields =>
    match lookupField fields "status" with
    | some (.str s) => s == "ok"
    | _ => false

/-! ## The selected file and `FileSchema` -/

/-- `MAX_BYTES = 10 * 1024 * 1024` from `page.tsx`. -/
def MAX_BYTES : ℕ := 10 * 1024 * 1024

/-- A selected `File`: name, declared content type, and actual size in bytes
(a `File`'s `size` is the real byte length of its contents, a non-negative
integer). -/
structure JSFile where
  name : String
  type : String
  size : ℕ
deriving DecidableEq, Repr

/-- JavaScript `String.prototype.startsWith` on code units. -/
def jsStartsWith (s pre : String) : Bool :=
  pre.data.isPrefixOf s.data

/-- JavaScript `String.prototype.endsWith` on code units. -/
def jsEndsWith (s suf : String) : Bool :=
  suf.data.isSuffixOf s.data

/-- The first `FileSchema` refinement: `file.size <= MAX_BYTES`. -/
def fileSizeOk (f : JSFile) : Bool :=
  f.size ≤ MAX_BYTES

/-- The second `FileSchema` refinement:
`file.type.startsWith("video/") || file.name.endsWith(".mp4")`. -/
def fileTypeOk (f : JSFile) : Bool :=
  jsStartsWith f.type "video/" || jsEndsWith f.name ".mp4"

/-- The issues produced by `FileSchema.safeParse`: each failing refinement
contributes its message, in refinement order. -/
def FileSchema_issues (f : JSFile) : List String :=
  (if fileSizeOk f then [] else ["Video must be 10MB or less."]) ++
  (if fileTypeOk f then [] else ["Please upload a video file."])

/-- `FileSchema.safeParse(f).success`. -/
def FileSchema_success (f : JSFile) : Bool :=
  (FileSchema_issues f).isEmpty

/-! ## Component state and event handlers -/

/-- The React state of the `Home` component that the handlers read and
write: `file`, `error`, `loading`, `response`. -/
structure UIState where
  file : Option JSFile
  error : Option String
  loading : Bool
  response : Option AnalyzeResponse
deriving DecidableEq, Repr

/-- `onFileChange`: clear `error` and `response`, then validate the newly
selected file (if any) with `FileSchema`; on failure clear `file` and record
the first issue's message (`parsed.error.errors[0]?.message ?? "Invalid
file."`), on success store the file. -/
def onFileChange (s : UIState) (selected : Option JSFile) : UIState :=
  let s := { s with error := none, response := none }
  match selected with
  | none => { s with file := none }
  | some f =>
    if FileSchema_success f then
      { s with file := some f }
    else
      { s with file := none,
               error := some ((FileSchema_issues f).head?.getD "Invalid file.") }

/-- The observable start of `onUpload`: either no request is issued (no file
selected, or missing base URL), or a `POST` request is issued to
`{baseUrl}/analyze` after resetting `loading`/`error`/`response`. -/
inductive UploadStart where
  | noRequest : UIState → UploadStart
  | request : String → UIState → UploadStart
deriving DecidableEq, Repr

/-- Whether an `UploadStart` issues an HTTP request. -/
def UploadStart.issuesRequest : UploadStart → Bool
  | .noRequest _ => false
  | .request _ _ => true

/-- The state carried by an `UploadStart`. -/
def UploadStart.state : UploadStart → UIState
  | .noRequest s => s
  | .request _ s => s

/-- The first half of `onUpload` (`page.tsx` lines 117–134): early return
when no file is set; error when the base URL is missing; otherwise reset
state and issue `POST {baseUrl}/analyze`. -/
def onUpload_begin (baseUrl : String) (s : UIState) : UploadStart :=
  match s.file with
  | none => .noRequest s
  | some _ =>
    if baseUrl == "" then
      .noRequest { s with error := some "Missing NEXT_PUBLIC_MODAL_BASE_URL env var." }
    else
      .request (baseUrl ++ "/analyze")
        { s with loading := true, error := none, response := none }

/-- The observable outcome of the `fetch` in `onUpload`: the fetch or the
body read threw (an `Error` with some message), the response had a non-ok
status (with its status code and body text), or an ok response whose JSON
body parsed to a value. -/
inductive AnalyzeFetchOutcome where
  | fetchFailed : String → AnalyzeFetchOutcome
  | notOk : ℕ → String → AnalyzeFetchOutcome
  | okJson : JSValue → AnalyzeFetchOutcome

/-- The second half of `onUpload` (`page.tsx` lines 136–154), applied to the
state established by `onUpload_begin`: a non-ok status throws
`text || "Upload failed with status {status}"`; an ok body is parsed with
`AnalyzeResponseSchema.safeParse` — failure throws
`"Modal response failed validation."`, success stores the parsed response;
every thrown `Error`'s message lands in `error`; `loading` is cleared in
`finally`. -/
def onUpload_complete (s : UIState) (o : AnalyzeFetchOutcome) : UIState :=
  let s' :=
    match o with
    | .fetchFailed msg => { s with error := some msg }
    | .notOk status text =>
      let msg := if text == "" then "Upload failed with status " ++ toString status else text
      { s with error := some msg }
    | .okJson v =>
      match AnalyzeResponseSchema_parse v with
      | none => { s with error := some "Modal response failed validation." }
      | some r => { s with response := some r }
  { s' with loading := false }

/-- The whole `onUpload` handler as a function of the fetch outcome: when
`onUpload_begin` issues no request the outcome never materializes and the
state is the early-return state. -/
def onUpload (baseUrl : String) (s : UIState) (o : AnalyzeFetchOutcome) : UIState :=
  match onUpload_begin baseUrl s with
  | .noRequest s' => s'
  | .request _ s' => onUpload_complete s' o

/-! ## Health polling -/

/-- The observable outcome of one `/health` poll's `fetch`: the fetch threw,
or a response arrived with its `ok` flag and (when `res.json()` succeeded)
its parsed JSON body. -/
inductive HealthFetchOutcome where
  | fetchFailed : HealthFetchOutcome
  | response : Bool → Option JSValue → HealthFetchOutcome
deriving Inhabited

/-- `checkHealth` (`page.tsx` lines 69–85): the value stored in `isModalUp`
after one poll.  A thrown fetch, a non-ok status (which throws), or a failed
`res.json()` all land in the `catch` and mark the service offline; otherwise
the service is up exactly when `HealthResponseSchema.safeParse` succeeds. -/
def checkHealth_isModalUp : HealthFetchOutcome → Bool
  | .fetchFailed => false
  | .response ok body =>
    if ok then
      match body with
      | some v => HealthResponseSchema_success v
      | none => false
    else false

/-! ## URL construction -/

/-- `baseUrl` normalization (`page.tsx` line 56):
`raw.replace(/\/$/, "")` — the regex matches a single `/` at the end of the
string, so at most one trailing slash is removed. -/
def normalizeBaseUrl (raw : String) : String :=
  if jsEndsWith raw "/" then ⟨raw.data.dropLast⟩ else raw

/-- The `baseUrl` memo: the environment variable, defaulted to `""`, then
normalized. -/
def baseUrlOf (envVar : Option String) : String :=
  normalizeBaseUrl (envVar.getD "")

/-- `videoUrl` (`page.tsx` line 59): `` `${baseUrl}/video/${response.id}` ``
when a response is present, otherwise `null`. -/
def videoUrl (baseUrl : String) (response : Option AnalyzeResponse) : Option String :=
  response.map (fun r => baseUrl ++ "/video/" ++ r.id)

/-- The `/health` request URL built from a configured raw base URL value. -/
def healthUrlOf (raw : String) : String :=
  baseUrlOf (some raw) ++ "/health"

/-- The `/analyze` request URL built from a configured raw base URL value. -/
def analyzeUrlOf (raw : String) : String :=
  baseUrlOf (some raw) ++ "/analyze"

/-- The `/video/{id}` request URL built from a configured raw base URL
value and a response id. -/
def videoUrlOf (raw : String) (id : String) : String :=
  baseUrlOf (some raw) ++ "/video/" ++ id

/-! ## Sample values -/

/-- A well-formed `/analyze` metadata JSON object. -/
def sampleMetadataJson : JSValue :=
  .obj [("width", .num (.finite 1920)), ("height", .num (.finite 1080)),
        ("durationSeconds", .num (.finite 5)), ("frameRate", .num (.finite 30))]

/-- A well-formed `/analyze` 200 body. -/
def sampleBody : JSValue :=
  .obj [("id", .str "abc123"), ("metadata", sampleMetadataJson)]

/-- The metadata record parsed from `sampleMetadataJson`. -/
def sampleMetadata : Metadata :=
  ⟨.finite 1920, .finite 1080, .finite 5, .finite 30⟩

/-- The response parsed from `sampleBody`. -/
def sampleResponse : AnalyzeResponse :=
  ⟨"abc123", sampleMetadata⟩

/-- A `/analyze` 200 body whose `durationSeconds` is `+Infinity`.
`JSON.parse` produces `Infinity` from an overflowing JSON number literal
such as `1e999`, so such a body is reachable from a real HTTP response. -/
def infiniteDurationBody : JSValue :=
  .obj [("id", .str "abc123"),
        ("metadata", .obj [("width", .num (.finite 1920)), ("height", .num (.finite 1080)),
                           ("durationSeconds", .num .posInf), ("frameRate", .num (.finite 30))])]

/-- A file one byte over the 10 MiB limit. -/
def oversizedFile : JSFile :=
  ⟨"big.mp4", "video/mp4", 10485761⟩

/-- A small valid video file. -/
def sampleFile : JSFile :=
  ⟨"clip.mp4", "video/mp4", 1024⟩

/-- A component state with a validated file selected. -/
def sampleState : UIState :=
  ⟨some sampleFile, none, false, none⟩

/-! ## Helper lemmas -/

theorem jsEndsWith_append_slash (s : String) : jsEndsWith (s ++ "/") "/" = true := by
  simp [jsEndsWith, String.data_append, List.isSuffixOf, List.isPrefixOf]

theorem normalizeBaseUrl_append_slash (s : String) :
    normalizeBaseUrl (s ++ "/") = s := by
  rw [normalizeBaseUrl, jsEndsWith_append_slash]
  simp [String.data_append]

theorem normalizeBaseUrl_of_not_slash (s : String) (h : jsEndsWith s "/" = false) :
    normalizeBaseUrl s = s := by
  rw [normalizeBaseUrl, h]
  simp

theorem string_append_cancel_left (a b c : String) (h : a ++ b = a ++ c) : b = c := by
  have hd : a.data ++ b.data = a.data ++ c.data := by
    rw [← String.data_append, ← String.data_append, h]
  exact String.ext (List.append_cancel_left hd)

theorem zodNumber_not_nan (v : JSValue) (n : JSNumber) (h : zodNumber v = some n) :
    n.isNaN = false := by
  cases v <;> try simp [zodNumber] at h
  case num m =>
    cases m <;> simp [zodNumber] at h <;> subst h <;> rfl

theorem zodNonnegInt_inv (v : JSValue) (n : JSNumber) (h : zodNonnegInt v = some n) :
    n.isInteger = true ∧ n.ltZero = false := by
  unfold zodNonnegInt at h
  cases hz : zodNumber v with
  | none => rw [hz] at h; exact absurd h (by simp)
  | some k =>
    rw [hz] at h
    dsimp only at h
    split_ifs at h with hc
    injection h with h
    subst h
    simpa [Bool.and_eq_true, Bool.not_eq_true'] using hc

theorem zodNonneg_inv (v : JSValue) (n : JSNumber) (h : zodNonneg v = some n) :
    n.isNaN = false ∧ n.ltZero = false := by
  unfold zodNonneg at h
  cases hz : zodNumber v with
  | none => rw [hz] at h; exact absurd h (by simp)
  | some k =>
    rw [hz] at h
    dsimp only at h
    split_ifs at h with hc
    injection h with h
    subst h
    exact ⟨zodNumber_not_nan _ _ hz, by simpa [Bool.not_eq_true'] using hc⟩

theorem zodNonemptyString_inv (v : JSValue) (s : String) (h : zodNonemptyString v = some s) :
    1 ≤ s.length := by
  unfold zodNonemptyString at h
  cases hz : zodString v with
  | none => rw [hz] at h; exact absurd h (by simp)
  | some t =>
    rw [hz] at h
    dsimp only at h
    split_ifs at h with hc
    injection h with h
    subst h
    exact hc

theorem MetadataSchema_parse_inv (v : JSValue) (m : Metadata)
    (h : MetadataSchema_parse v = some m) :
    m.width.isInteger = true ∧ m.width.ltZero = false ∧
    m.height.isInteger = true ∧ m.height.ltZero = false ∧
    m.durationSeconds.isNaN = false ∧ m.durationSeconds.ltZero = false ∧
    m.frameRate.isNaN = false ∧ m.frameRate.ltZero = false := by
  unfold MetadataSchema_parse at h
  split at h
  · exact absurd h (by simp)
  case _ fields _ =>
    split at h
    case _ w hh d f hw hhh hd hf =>
      injection h with h
      subst h
      obtain ⟨wv, -, hw'⟩ := Option.bind_eq_some.mp hw
      obtain ⟨hv, -, hh'⟩ := Option.bind_eq_some.mp hhh
      obtain ⟨dv, -, hd'⟩ := Option.bind_eq_some.mp hd
      obtain ⟨fv, -, hf'⟩ := Option.bind_eq_some.mp hf
      obtain ⟨hw1, hw2⟩ := zodNonnegInt_inv _ _ hw'
      obtain ⟨hh1, hh2⟩ := zodNonnegInt_inv _ _ hh'
      obtain ⟨hd1, hd2⟩ := zodNonneg_inv _ _ hd'
      obtain ⟨hf1, hf2⟩ := zodNonneg_inv _ _ hf'
      exact ⟨hw1, hw2, hh1, hh2, hd1, hd2, hf1, hf2⟩
    case _ =>
      exact absurd h (by simp)

theorem AnalyzeResponseSchema_parse_inv (v : JSValue) (r : AnalyzeResponse)
    (h : AnalyzeResponseSchema_parse v = some r) :
    1 ≤ r.id.length ∧ ∃ mv, MetadataSchema_parse mv = some r.metadata := by
  unfold AnalyzeResponseSchema_parse at h
  split at h
  · exact absurd h (by simp)
  case _ fields _ =>
    split at h
    case _ id md hid hmd =>
      injection h with h
      subst h
      obtain ⟨iv, -, hid'⟩ := Option.bind_eq_some.mp hid
      obtain ⟨mv, -, hmd'⟩ := Option.bind_eq_some.mp hmd
      exact ⟨zodNonemptyString_inv _ _ hid', mv, hmd'⟩
    case _ =>
      exact absurd h (by simp)

theorem JSNumber.isFinite_of_isInteger (n : JSNumber) (h : n.isInteger = true) :
    n.isFinite = true := by
  cases n <;> simp_all [JSNumber.isInteger, JSNumber.isFinite]

/-! ## Claims -/

/-- C1: the client-side validator rejects a selected file on size exactly
when its actual size exceeds 10485760 bytes (10 * 1024 * 1024): validation
succeeds exactly when the size is at most 10485760 bytes and the type check
passes, and the size error message "Video must be 10MB or less." is produced
exactly when the size strictly exceeds that exact byte count. -/
theorem fileSchema_size_threshold (f : JSFile) :
    FileSchema_success f = (decide (f.size ≤ 10485760) && fileTypeOk f) ∧
    ("Video must be 10MB or less." ∈ FileSchema_issues f ↔ 10485760 < f.size) := by
  have hmax : MAX_BYTES = 10485760 := by norm_num [MAX_BYTES]
  have hne : ("Video must be 10MB or less." : String) ≠ "Please upload a video file." := by
    decide
  have hdec : (decide (f.size ≤ 10485760)) = fileSizeOk f := by
    simp [fileSizeOk, hmax]
  have hsize : fileSizeOk f = false ↔ 10485760 < f.size := by
    simp [fileSizeOk, hmax, Nat.not_le]
  constructor
  · rw [hdec]
    by_cases hs : fileSizeOk f = true <;> by_cases ht : fileTypeOk f = true <;>
      simp_all [FileSchema_success, FileSchema_issues]
  · rw [← hsize]
    by_cases hs : fileSizeOk f = true <;> by_cases ht : fileTypeOk f = true <;>
      simp_all [FileSchema_issues, hne]

/-- C2 (counterexample): a 200 `/analyze` body whose `durationSeconds` is
`+Infinity` is accepted by `AnalyzeResponseSchema.safeParse` — and stored as
the displayed response by `onUpload` — even though that field is not
finite, so the parse does not enforce finiteness of all four metadata
fields. -/
theorem metadata_parse_accepts_infinite_duration :
    AnalyzeResponseSchema_parse infiniteDurationBody =
      some ⟨"abc123", ⟨.finite 1920, .finite 1080, .posInf, .finite 30⟩⟩ ∧
    JSNumber.isFinite .posInf = false ∧
    (onUpload "http://modal.test" sampleState (.okJson infiniteDurationBody)).response =
      some ⟨"abc123", ⟨.finite 1920, .finite 1080, .posInf, .finite 30⟩⟩ :=
  ⟨rfl, rfl, rfl⟩

/-- C2 (amended): every `/analyze` response accepted by the boundary parse
has metadata whose `width` and `height` are finite non-negative integers and
whose `durationSeconds` and `frameRate` are non-NaN and non-negative (but
not necessarily finite: `+Infinity` passes); responses violating these
checks are rejected by the parse. -/
theorem metadata_parse_nonneg_invariant (v : JSValue) (r : AnalyzeResponse)
    (h : AnalyzeResponseSchema_parse v = some r) :
    r.metadata.width.isFinite = true ∧ r.metadata.width.isInteger = true ∧
      r.metadata.width.ltZero = false ∧
    r.metadata.height.isFinite = true ∧ r.metadata.height.isInteger = true ∧
      r.metadata.height.ltZero = false ∧
    r.metadata.durationSeconds.isNaN = false ∧ r.metadata.durationSeconds.ltZero = false ∧
    r.metadata.frameRate.isNaN = false ∧ r.metadata.frameRate.ltZero = false := by
  obtain ⟨-, mv, hmv⟩ := AnalyzeResponseSchema_parse_inv v r h
  obtain ⟨h1, h2, h3, h4, h5, h6, h7, h8⟩ := MetadataSchema_parse_inv mv r.metadata hmv
  exact ⟨JSNumber.isFinite_of_isInteger _ h1, h1, h2,
         JSNumber.isFinite_of_isInteger _ h3, h3, h4, h5, h6, h7, h8⟩

/-- Witness for C2 (amended) at the concrete body `sampleBody`. -/
theorem metadata_parse_nonneg_invariant_witness :
    sampleResponse.metadata.width.isFinite = true ∧
      sampleResponse.metadata.width.isInteger = true ∧
      sampleResponse.metadata.width.ltZero = false ∧
    sampleResponse.metadata.height.isFinite = true ∧
      sampleResponse.metadata.height.isInteger = true ∧
      sampleResponse.metadata.height.ltZero = false ∧
    sampleResponse.metadata.durationSeconds.isNaN = false ∧
      sampleResponse.metadata.durationSeconds.ltZero = false ∧
    sampleResponse.metadata.frameRate.isNaN = false ∧
      sampleResponse.metadata.frameRate.ltZero = false :=
  metadata_parse_nonneg_invariant sampleBody sampleResponse rfl

/-- C3: the client-side validator rejects a selected file on type (producing
the message "Please upload a video file.") exactly when the declared content
type does not start with "video/" and the filename does not end in ".mp4"
(the recognized video container extension); a file satisfying either
condition passes the type check. -/
theorem fileSchema_type_check (f : JSFile) :
    ("Please upload a video file." ∈ FileSchema_issues f ↔
      jsStartsWith f.type "video/" = false ∧ jsEndsWith f.name ".mp4" = false) ∧
    (fileTypeOk f = true ↔
      jsStartsWith f.type "video/" = true ∨ jsEndsWith f.name ".mp4" = true) := by
  have hne : ("Please upload a video file." : String) ≠ "Video must be 10MB or less." := by
    decide
  constructor
  · constructor
    · intro hmem
      by_cases ht : fileTypeOk f = true
      · exfalso
        by_cases hs : fileSizeOk f = true <;> simp_all [FileSchema_issues, hne]
      · have ht' : fileTypeOk f = false := by simpa using ht
        simp only [fileTypeOk, Bool.or_eq_false_iff] at ht'
        exact ht'
    · rintro ⟨h1, h2⟩
      have ht : fileTypeOk f = false := by simp [fileTypeOk, h1, h2]
      by_cases hs : fileSizeOk f = true <;> simp [FileSchema_issues, hs, ht]
  · simp [fileTypeOk]

/-- C4: when a selected file fails `FileSchema` validation, `onFileChange`
clears the selected-file state to `null` and records a descriptive error
message (the first issue's message), and `onUpload` on the resulting state
early-returns without issuing any `/analyze` request. -/
theorem invalid_file_blocks_upload (b : String) (s : UIState) (f : JSFile)
    (h : FileSchema_success f = false) :
    (onFileChange s (some f)).file = none ∧
    (onFileChange s (some f)).error =
      some ((FileSchema_issues f).head?.getD "Invalid file.") ∧
    onUpload_begin b (onFileChange s (some f)) = .noRequest (onFileChange s (some f)) ∧
    (onUpload_begin b (onFileChange s (some f))).issuesRequest = false := by
  have hfc : onFileChange s (some f) =
      ⟨none, some ((FileSchema_issues f).head?.getD "Invalid file."), s.loading, none⟩ := by
    simp [onFileChange, h]
  rw [hfc]
  exact ⟨rfl, rfl, rfl, rfl⟩

/-- Witness for C4 at a file one byte over the limit. -/
theorem invalid_file_blocks_upload_witness :
    (onFileChange sampleState (some oversizedFile)).file = none ∧
    (onFileChange sampleState (some oversizedFile)).error =
      some "Video must be 10MB or less." ∧
    onUpload_begin "http://modal.test" (onFileChange sampleState (some oversizedFile)) =
      .noRequest (onFileChange sampleState (some oversizedFile)) ∧
    (onUpload_begin "http://modal.test"
      (onFileChange sampleState (some oversizedFile))).issuesRequest = false :=
  invalid_file_blocks_upload "http://modal.test" sampleState oversizedFile rfl

/-- C5: for every 200 `/analyze` response whose JSON body fails
`AnalyzeResponseSchema.safeParse`, `onUpload` surfaces the error
"Modal response failed validation.", stores no response (so no metadata is
displayed), clears `loading`, and derives no video URL. -/
theorem malformed_analyze_response_rejected (b : String) (s : UIState) (v : JSValue)
    (hf : s.file.isSome = true) (hb : b ≠ "")
    (hp : AnalyzeResponseSchema_parse v = none) :
    (onUpload b s (.okJson v)).error = some "Modal response failed validation." ∧
    (onUpload b s (.okJson v)).response = none ∧
    (onUpload b s (.okJson v)).loading = false ∧
    videoUrl b (onUpload b s (.okJson v)).response = none := by
  obtain ⟨f, hf'⟩ := Option.isSome_iff_exists.mp hf
  have hb' : (b == "") = false := by simpa using hb
  have hu : onUpload b s (.okJson v) =
      ⟨s.file, some "Modal response failed validation.", false, none⟩ := by
    simp only [onUpload, onUpload_begin, hf', hb', Bool.false_eq_true, if_false,
      onUpload_complete, hp]
  rw [hu]
  exact ⟨rfl, rfl, rfl, rfl⟩

/-- Witness for C5 at the malformed 200 body `"oops"` (a JSON string, not an
object). -/
theorem malformed_analyze_response_rejected_witness :
    (onUpload "http://modal.test" sampleState (.okJson (.str "oops"))).error =
      some "Modal response failed validation." ∧
    (onUpload "http://modal.test" sampleState (.okJson (.str "oops"))).response = none ∧
    (onUpload "http://modal.test" sampleState (.okJson (.str "oops"))).loading = false ∧
    videoUrl "http://modal.test"
      (onUpload "http://modal.test" sampleState (.okJson (.str "oops"))).response = none :=
  malformed_analyze_response_rejected "http://modal.test" sampleState (.str "oops")
    rfl (by decide) rfl

/-- C6: after a health poll, the service is marked up exactly when the
`/health` fetch completed with an ok status and its JSON body parsed as an
object whose `status` field is the literal "ok"; every fetch failure, non-ok
status, or body/parse failure marks the service offline. -/
theorem health_up_iff (o : HealthFetchOutcome) :
    checkHealth_isModalUp o = true ↔
      ∃ v, o = .response true (some v) ∧ HealthResponseSchema_success v = true := by
  cases o with
  | fetchFailed => simp [checkHealth_isModalUp]
  | response ok body =>
    cases ok <;> cases body <;> simp [checkHealth_isModalUp]

/-- C7: the video fetch URL is the base URL followed by "/video/" followed by
the response id unchanged, and the id is recoverable from the URL (no
transformation of the id's contents: the construction is injective in the
id). -/
theorem videoUrl_opaque_id (b : String) (r r' : AnalyzeResponse) :
    videoUrl b (some r) = some (b ++ "/video/" ++ r.id) ∧
    (videoUrl b (some r) = videoUrl b (some r') → r.id = r'.id) := by
  refine ⟨rfl, fun h => ?_⟩
  simp only [videoUrl, Option.map_some', Option.some.injEq] at h
  exact string_append_cancel_left (b ++ "/video/") r.id r'.id
    (by simpa [String.append_assoc] using h)

/-- Witness for C7 at the sample response. -/
theorem videoUrl_opaque_id_witness :
    videoUrl "http://modal.test" (some sampleResponse) =
      some ("http://modal.test" ++ "/video/" ++ sampleResponse.id) ∧
    sampleResponse.id = sampleResponse.id :=
  ⟨(videoUrl_opaque_id "http://modal.test" sampleResponse sampleResponse).1,
   (videoUrl_opaque_id "http://modal.test" sampleResponse sampleResponse).2 rfl⟩

/-- C8: a 200 `/analyze` body whose `id` field is the empty string is
rejected by the boundary parse regardless of its metadata, and every parsed
(hence displayable) response has a non-empty id. -/
theorem analyze_empty_id_rejected (mv v : JSValue) (r : AnalyzeResponse) :
    AnalyzeResponseSchema_parse (.obj [("id", .str ""), ("metadata", mv)]) = none ∧
    (AnalyzeResponseSchema_parse v = some r → r.id ≠ "") := by
  refine ⟨rfl, fun h he => ?_⟩
  have h1 := (AnalyzeResponseSchema_parse_inv v r h).1
  rw [he] at h1
  simp at h1

/-- Witness for C8: the empty-id body is rejected, and the sample parsed
response has a non-empty id. -/
theorem analyze_empty_id_rejected_witness :
    AnalyzeResponseSchema_parse (.obj [("id", .str ""), ("metadata", .obj [])]) = none ∧
    sampleResponse.id ≠ "" :=
  ⟨(analyze_empty_id_rejected (.obj []) sampleBody sampleResponse).1,
   (analyze_empty_id_rejected (.obj []) sampleBody sampleResponse).2 rfl⟩

/-- C9: every file-selection event leaves no stale analyze response (and
hence no stale metadata or video URL) in the state, and the resulting error
is either cleared or freshly produced by validating the new selection —
whether the new selection is valid, invalid, or empty. -/
theorem file_selection_clears_state (b : String) (s : UIState) (sel : Option JSFile) :
    (onFileChange s sel).response = none ∧
    videoUrl b (onFileChange s sel).response = none ∧
    ((onFileChange s sel).error = none ∨
      ∃ f, sel = some f ∧ FileSchema_success f = false ∧
        (onFileChange s sel).error =
          some ((FileSchema_issues f).head?.getD "Invalid file.")) := by
  cases sel with
  | none => exact ⟨rfl, rfl, Or.inl rfl⟩
  | some f =>
    by_cases hv : FileSchema_success f = true
    · refine ⟨?_, ?_, Or.inl ?_⟩ <;> simp [onFileChange, hv, videoUrl]
    · have hv' : FileSchema_success f = false := by simpa using hv
      refine ⟨?_, ?_, Or.inr ⟨f, rfl, hv', ?_⟩⟩ <;> simp [onFileChange, hv', videoUrl]

/-- C10: base-URL normalization strips at most one trailing slash, so for a
configured value not ending in "/", the `/health`, `/analyze`, and
`/video/{id}` request URLs built from the value and from the value with a
single trailing slash appended are identical. -/
theorem base_url_single_trailing_slash (raw id : String)
    (h : jsEndsWith raw "/" = false) :
    healthUrlOf (raw ++ "/") = healthUrlOf raw ∧
    analyzeUrlOf (raw ++ "/") = analyzeUrlOf raw ∧
    videoUrlOf (raw ++ "/") id = videoUrlOf raw id := by
  have h1 : baseUrlOf (some (raw ++ "/")) = raw := by
    simp [baseUrlOf, normalizeBaseUrl_append_slash]
  have h2 : baseUrlOf (some raw) = raw := by
    simp [baseUrlOf, normalizeBaseUrl_of_not_slash raw h]
  simp [healthUrlOf, analyzeUrlOf, videoUrlOf, h1, h2]

/-- Witness for C10 at a concrete base URL and id. -/
theorem base_url_single_trailing_slash_witness :
    healthUrlOf ("http://modal.test" ++ "/") = healthUrlOf "http://modal.test" ∧
    analyzeUrlOf ("http://modal.test" ++ "/") = analyzeUrlOf "http://modal.test" ∧
    videoUrlOf ("http://modal.test" ++ "/") "abc123" = videoUrlOf "http://modal.test" "abc123" :=
  base_url_single_trailing_slash "http://modal.test" "abc123" rfl
